import Mathlib

/-!
# Verification of the shape-geometry / GPU-buffer core

Shallow embedding, in Lean 4, of the GPU resource abstraction and
shape-geometry generation layer of the repository
`BerkaySY/CS421-Computer_Graphics` (namespace `graf` in the C++ source):

* `ShapeFactory` shared helpers (`GenerateFaceIndices`,
  `AssignTextureCoords`, `DefineFace`, `SetTextureCoords`),
* the concrete factories (Square, Circle, Cube, Pyramid, Frustum),
* `VertexBuffer` / `IndexBuffer` (`Create`, `Release`, `getIndexCount`),
* `VertexArrayObject` (`AddVertexAttribute`, `ActivateAttributes`,
  `SetIndexBuffer`, `Draw`),
* `ShapeFactoryManager` (factory registry + geometry cache).

Modelling conventions:

* C++ `int` / `unsigned int` / `size_t` values are modelled by `Int` / `Nat`.
  Where the implicit `int -> size_t` conversion in the bounds checks of
  `AssignTextureCoords` / `DefineFace` matters (negative offsets), the
  conversion is modelled explicitly as reduction modulo `2^64`
  (`sizeT`, `SIZE_T_MOD`).  Where every value handled by the program is
  tiny (face indices, strides, counts) plain `Nat` arithmetic is used.
* `std::vector` is modelled by `List`; `operator[]` outside the bounds of
  the vector is undefined behaviour in C++ and is modelled by a dedicated
  `undefined` outcome.
* A thrown `GrafException`/`BufferException` is modelled by an error
  result; because the C++ helpers mutate the vertex vector in place, the
  error result carries the state of the vector at the moment of the throw.
* OpenGL calls (`glDeleteBuffers`, `glDrawElements`, ...) are modelled as
  records of the call that would be issued; `glGenBuffers` results are
  passed in as an explicit parameter of `Create`.
* Floating-point positions/texture coordinates are idealised as real
  numbers (`ℝ`); integer-only data (index lists, counts, strides) stays
  executable.
-/

namespace Graf

/-- Error kinds of the `graf` exception hierarchy, abstracted to the error
kinds named by the specification. -/
inductive GrafError where
  /-- `BufferException` / `GrafException` for a null/empty/non-positive input. -/
  | invalidArgument
  /-- a graphics object allocation returned a zero handle. -/
  | resourceCreation
  /-- operation attempted before its prerequisite state. -/
  | invalidState
  /-- helper offset/index exceeds the target container bounds. -/
  | outOfRange
  /-- `ShapeFactoryManager`: no factory registered for the requested kind. -/
  | unknownShape
  deriving DecidableEq, Repr

/-! ## ShapeFactory::GenerateFaceIndices  (ShapeFactory.cpp)

```cpp
void ShapeFactory::GenerateFaceIndices(IndexList &indices, int faceCount, int offset)
{
    for (int i = 0; i < faceCount; i++)
    {
        indices.push_back(offset + i * 4);     // First triangle: 0-2-1
        indices.push_back(offset + i * 4 + 2);
        indices.push_back(offset + i * 4 + 1);

        indices.push_back(offset + i * 4);     // Second triangle: 0-3-2
        indices.push_back(offset + i * 4 + 3);
        indices.push_back(offset + i * 4 + 2);
    }
}
```

`IndexList` is `std::vector<unsigned int>`; `faceCount` and `offset` are
non-negative in every call of the program and the pushed values are far
below `2^32`, so the arithmetic is modelled exactly on `Nat`. -/

/-- The six indices pushed for face `i` in one iteration of the loop body
of `GenerateFaceIndices`. -/
def faceBlock (offset i : Nat) : List Nat :=
  [offset + i * 4, offset + i * 4 + 2, offset + i * 4 + 1,
   offset + i * 4, offset + i * 4 + 3, offset + i * 4 + 2]

/-- `ShapeFactory::GenerateFaceIndices`: the loop `for (i = 0; i < faceCount; ++i)`
appending `faceBlock offset i` to the vector each iteration. -/
def GenerateFaceIndices (indices : List Nat) (faceCount : Nat) (offset : Nat := 0) :
    List Nat :=
  (List.range faceCount).foldl (fun acc i => acc ++ faceBlock offset i) indices

/-- The concatenation of the blocks of faces `0 .. n-1` (loop order). -/
def faceBlocks (offset : Nat) : Nat → List Nat
  | 0 => []
  | n + 1 => faceBlocks offset n ++ faceBlock offset n

/-! ## OpenGL call records

The graphics context is modelled by recording the GL calls a method would
issue; `glGenBuffers` results are supplied as an explicit `genId`
parameter of `Create`. -/

/-- A GL buffer binding target (`GL_ARRAY_BUFFER` / `GL_ELEMENT_ARRAY_BUFFER`). -/
inductive BufferTarget where
  | array
  | elementArray
  deriving DecidableEq, Repr

/-- The draw primitive mode; the code only ever uses `GL_TRIANGLES`. -/
inductive DrawMode where
  | triangles
  deriving DecidableEq, Repr

/-- The index element type; the code only ever uses `GL_UNSIGNED_INT`. -/
inductive IndexElementType where
  | unsignedInt
  deriving DecidableEq, Repr

/-- A record of one OpenGL call issued by the buffer / VAO layer. -/
inductive GLCall where
  | genBuffers
  | bindBuffer (target : BufferTarget) (id : Nat)
  | bufferData (target : BufferTarget) (size : Int)
  | deleteBuffers (id : Nat)
  | drawElements (mode : DrawMode) (count : Int) (ty : IndexElementType) (offset : Nat)
  deriving DecidableEq, Repr

/-! ## VertexBuffer  (VertexBuffer.cpp)

```cpp
void VertexBuffer::Create(const void* data, int size)
{
    if (data == nullptr || size <= 0)
        throw BufferException("Invalid vertex buffer data or size");
    glGenBuffers(1, &m_id);
    if (m_id == 0)
        throw BufferException("Failed to generate vertex buffer");
    glBindBuffer(GL_ARRAY_BUFFER, m_id);
    glBufferData(GL_ARRAY_BUFFER, size, data, GL_STATIC_DRAW);
    CheckGLError("Vertex Buffer Creation");
}
void VertexBuffer::Release()
{
    if (m_id != 0) { glDeleteBuffers(1, &m_id); m_id = 0; }
}
```
The data pointer is modelled as `Option (List Nat)` (`none` = null). -/

/-- The state of a `graf::VertexBuffer`: its GL handle `m_id`. -/
structure VertexBuffer where
  m_id : Nat
  deriving DecidableEq, Repr

/-- `VertexBuffer::Create`, returning the thrown error (if any), the state
of the object after the call, and the GL calls issued. -/
def VertexBuffer.Create (b : VertexBuffer) (data : Option (List Nat)) (size : Int)
    (genId : Nat) : Option GrafError × VertexBuffer × List GLCall :=
  if data = none ∨ size ≤ 0 then (some .invalidArgument, b, [])
  else if genId = 0 then (some .resourceCreation, { b with m_id := genId }, [.genBuffers])
  else (none, { m_id := genId },
        [.genBuffers, .bindBuffer .array genId, .bufferData .array size])

/-- `VertexBuffer::Release`. -/
def VertexBuffer.Release (b : VertexBuffer) : VertexBuffer × List GLCall :=
  if b.m_id ≠ 0 then ({ m_id := 0 }, [.deleteBuffers b.m_id]) else (b, [])

/-! ## IndexBuffer  (IndexBuffer.cpp)

Same shape as `VertexBuffer` plus `m_IndexCount = size / 4` recorded on a
successful `Create` (`int` division; `size > 0` there, so all division
conventions agree). -/

/-- The state of a `graf::IndexBuffer`: GL handle `m_id` and the cached
`m_IndexCount` (an `int`, uninitialised before `Create`). -/
structure IndexBuffer where
  m_id : Nat
  m_IndexCount : Int
  deriving DecidableEq, Repr

/-- `IndexBuffer::Create`. -/
def IndexBuffer.Create (b : IndexBuffer) (data : Option (List Nat)) (size : Int)
    (genId : Nat) : Option GrafError × IndexBuffer × List GLCall :=
  if data = none ∨ size ≤ 0 then (some .invalidArgument, b, [])
  else if genId = 0 then (some .resourceCreation, { b with m_id := genId }, [.genBuffers])
  else (none, { m_id := genId, m_IndexCount := size / 4 },
        [.genBuffers, .bindBuffer .elementArray genId, .bufferData .elementArray size])

/-- `IndexBuffer::getIndexCount`. -/
def IndexBuffer.getIndexCount (b : IndexBuffer) : Int :=
  b.m_IndexCount

/-- `IndexBuffer::Release`. -/
def IndexBuffer.Release (b : IndexBuffer) : IndexBuffer × List GLCall :=
  if b.m_id ≠ 0 then ({ b with m_id := 0 }, [.deleteBuffers b.m_id]) else (b, [])

/-! ## VertexArrayObject  (VertexArrayObject.cpp) -/

/-- `graf::VertexAttributeType`, in source declaration order. -/
inductive VertexAttributeType where
  | Position
  | Color
  | Normal
  | Texture
  deriving DecidableEq, Repr

/-- `VertexArrayObject::getTypeSize`: `sizeof(float) * 3 = 12` for
Position/Normal, `sizeof(float) * 4 = 16` for Color, `sizeof(float) * 2 = 8`
for Texture. -/
def getTypeSize : VertexAttributeType → Nat
  | .Position => 12
  | .Normal => 12
  | .Color => 16
  | .Texture => 8

/-- The state of a `graf::VertexArrayObject`. -/
structure VertexArrayObject where
  m_id : Nat
  m_stride : Nat
  m_attributes : List VertexAttributeType
  mp_vb : Option VertexBuffer
  mp_ib : Option IndexBuffer
  deriving DecidableEq, Repr

/-- The state of a `VertexArrayObject` directly after a successful
`Create()`: handle `genId`, `m_stride = 0`, empty attribute list, null
buffer pointers (the default-constructed members). -/
def freshVAO (genId : Nat) : VertexArrayObject :=
  { m_id := genId, m_stride := 0, m_attributes := [], mp_vb := none, mp_ib := none }

/-- `VertexArrayObject::SetIndexBuffer` (the GL binding calls and
`CheckGLError` are modelled as succeeding; on a null pointer the method
throws before touching the state). -/
def VertexArrayObject.SetIndexBuffer (va : VertexArrayObject)
    (p_ib : Option IndexBuffer) : Option GrafError × VertexArrayObject :=
  match p_ib with
  | none => (some .invalidArgument, va)
  | some ib => (none, { va with mp_ib := some ib })

/-- `VertexArrayObject::AddVertexAttribute`. -/
def VertexArrayObject.AddVertexAttribute (va : VertexArrayObject)
    (ty : VertexAttributeType) : VertexArrayObject :=
  { va with m_attributes := va.m_attributes ++ [ty],
            m_stride := va.m_stride + getTypeSize ty }

/-- One `glVertexAttribPointer(i, elementCount, GL_FLOAT, GL_FALSE, stride,
(void*)location)` registration (the attribute is also enabled). -/
structure AttribPointer where
  index : Nat
  elementCount : Nat
  offset : Nat
  stride : Nat
  deriving DecidableEq, Repr

/-- The loop body of `ActivateAttributes`: iterates over the attribute
list carrying the location index `i` and the byte-offset accumulator
`location`, registering each attribute with the stored stride. -/
def activateAux : List VertexAttributeType → Nat → Nat → Nat → List AttribPointer
  | [], _, _, _ => []
  | t :: rest, i, location, stride =>
      ⟨i, getTypeSize t / 4, location, stride⟩ ::
        activateAux rest (i + 1) (location + getTypeSize t) stride

/-- `VertexArrayObject::ActivateAttributes`: throws if the attribute list
is empty, otherwise registers every attribute in order. -/
def VertexArrayObject.ActivateAttributes (va : VertexArrayObject) :
    Except GrafError (List AttribPointer) :=
  if va.m_attributes = [] then .error .invalidState
  else .ok (activateAux va.m_attributes 0 0 va.m_stride)

/-- `VertexArrayObject::Draw`:

```cpp
if (!mp_ib) throw BufferException("No index buffer bound for drawing");
glDrawElements(GL_TRIANGLES, mp_ib->getIndexCount(), GL_UNSIGNED_INT, 0);
```
The successful result is the single draw call issued. -/
def VertexArrayObject.Draw (va : VertexArrayObject) : Except GrafError GLCall :=
  match va.mp_ib with
  | none => .error .invalidState
  | some ib => .ok (.drawElements .triangles ib.getIndexCount .unsignedInt 0)

/-! ## ShapeFactoryManager  (ShapeFactoryManager.cpp)

```cpp
ShapeFactoryManager::ShapeFactoryManager()
{
    factories[ShapeTypes::Square]  = make_unique<SquareFactory>();
    factories[ShapeTypes::Circle]  = make_unique<CircleFactory>(10);
    factories[ShapeTypes::Cube]    = make_unique<CubeFactory>();
    factories[ShapeTypes::Pyramid] = make_unique<PyramidFactory>();
    factories[ShapeTypes::Frustum] = make_unique<FrustumFactory>();
}
std::shared_ptr<VertexArrayObject> ShapeFactoryManager::createShape(ShapeTypes shapeType)
{
    if (shapeCache.count(shapeType) > 0)
        return shapeCache[shapeType];
    auto it = factories.find(shapeType);
    if (it == factories.end())
        throw GrafException("Unknown shape type");
    auto shape = it->second->createShape();
    shapeCache[shapeType] = shape;
    return shape;
}
```

A shape kind is modelled by the underlying integer of `enum class
ShapeTypes` (Circle = 0, Square = 1, Cube = 2, Pyramid = 3, Frustum = 4;
any other integer is a kind value with no registered factory).  A shared
drawable is identified by a `Nat` id; a factory invocation allocates a
fresh id, so reference equality of drawables is id equality. -/

/-- The kind values for which the constructor registers a factory. -/
def registeredShapeKinds : List Int := [0, 1, 2, 3, 4]

/-- The state of a `ShapeFactoryManager`: the memo cache (`std::map` as an
association list), the next fresh drawable identity, and the number of
factory `createShape()` invocations performed so far. -/
structure ShapeFactoryManager where
  shapeCache : List (Int × Nat)
  nextDrawableId : Nat
  factoryInvocations : Nat
  deriving DecidableEq, Repr

/-- `ShapeFactoryManager::createShape`. -/
def ShapeFactoryManager.createShape (m : ShapeFactoryManager) (k : Int) :
    Except GrafError Nat × ShapeFactoryManager :=
  match m.shapeCache.lookup k with
  | some g => (.ok g, m)
  | none =>
    if k ∈ registeredShapeKinds then
      (.ok m.nextDrawableId,
       { shapeCache := (k, m.nextDrawableId) :: m.shapeCache,
         nextDrawableId := m.nextDrawableId + 1,
         factoryInvocations := m.factoryInvocations + 1 })
    else (.error .unknownShape, m)

/-! ## CircleFactory  (CircleFactory.cpp)

```cpp
int vertexCount = 360 / m_angles;
int faceCount = vertexCount - 2;
for (int i = 0; i < vertexCount; i++) {
    double currentAngle = m_angles * i;
    vertices[i].position.x = glm::cos(glm::radians(currentAngle));
    vertices[i].position.y = glm::sin(glm::radians(currentAngle));
    vertices[i].position.z = 0.0f;
    ...
}
AssignTextureCoords(vertices, 0, textureCoords);
for (int i = 0; i < faceCount; i++) {
    indices.push_back(0);
    indices.push_back(i + 2);
    indices.push_back(i + 1);
}
```

All counts are non-negative `int`s, modelled on `Nat`; the float trig is
idealised on `ℝ` (the claim asks for the positions within floating
tolerance).  `AssignTextureCoords` writes only the texture field of the
vertices, never a position, and its bounds check passes here
(`offset = 0`, `coords.length = vertices.length`), so the positions of the
returned geometry are exactly the ones set in the loop. -/

/-- `int vertexCount = 360 / m_angles` (C++ `int` division on
non-negative operands). -/
def circleVertexCount (m_angles : Nat) : Nat := 360 / m_angles

/-- `int faceCount = vertexCount - 2` (non-negative for every
`m_angles ≤ 120`, in particular for the 10 used by the manager). -/
def circleFaceCount (m_angles : Nat) : Nat := circleVertexCount m_angles - 2

/-- The triangle-fan index loop of `CircleFactory::createShape`. -/
def circleIndices (m_angles : Nat) : List Nat :=
  (List.range (circleFaceCount m_angles)).foldl
    (fun acc i => acc ++ [0, i + 2, i + 1]) []

/-- `glm::radians`: degrees to radians. -/
noncomputable def glmRadians (deg : ℝ) : ℝ := deg * (Real.pi / 180)

/-- The position the vertex loop writes for vertex `i`
(`currentAngle = m_angles * i` degrees, `z = 0`). -/
noncomputable def circleVertexPos (m_angles i : Nat) : ℝ × ℝ × ℝ :=
  (Real.cos (glmRadians ((m_angles * i : Nat) : ℝ)),
   Real.sin (glmRadians ((m_angles * i : Nat) : ℝ)), 0)

/-- Every consecutive triple of a list (one triangle of the index list)
contains the index 0. -/
def trianglesContainZero : List Nat → Bool
  | [] => true
  | a :: b :: c :: rest => (a == 0 || b == 0 || c == 0) && trianglesContainZero rest
  | _ => false

/-! ## The five concrete factories: vertex counts and index lists

Each factory hands `createVAOFromData` a vertex list of fixed size and the
index list below; positions and texture coordinates do not affect the
index bounds. -/

/-- `SquareFactory::createShape`: `VertexList vertices(6)`. -/
def squareVertexCount : Nat := 6

/-- `SquareFactory::createShape`: `IndexList indices = {0, 1, 2, 3, 4, 5}`. -/
def squareIndices : List Nat := [0, 1, 2, 3, 4, 5]

/-- `CubeFactory::createShape`: `VertexList vertices(24)`. -/
def cubeVertexCount : Nat := 24

/-- `CubeFactory::createShape`: `GenerateFaceIndices(indices, 6)` on an
empty index list. -/
def cubeIndices : List Nat := GenerateFaceIndices [] 6

/-- `PyramidFactory::createShape`: `VertexList vertices(16)`. -/
def pyramidVertexCount : Nat := 16

/-- `PyramidFactory::createShape`:
`IndexList indices = {0,1,2,3,4,5,6,7,8,9,10,11,12,13,14,12,14,15}`. -/
def pyramidIndices : List Nat :=
  [0, 1, 2, 3, 4, 5, 6, 7, 8, 9, 10, 11, 12, 13, 14, 12, 14, 15]

/-- `FrustumFactory::createShape`: `VertexList vertices(24)`. -/
def frustumVertexCount : Nat := 24

/-- `FrustumFactory::createShape`: `GenerateFaceIndices(indices, 6)` on an
empty index list. -/
def frustumIndices : List Nat := GenerateFaceIndices [] 6

/-! ## AssignTextureCoords / DefineFace  (ShapeFactory.cpp)

```cpp
void ShapeFactory::AssignTextureCoords(VertexList& vertices, int offset,
                                       const std::vector<std::pair<float, float>>& coords)
{
    if (offset + coords.size() > vertices.size())
        throw GrafException("Texture coords size exceeds vertex list size");
    for (size_t i = 0; i < coords.size(); i++)
        SetTextureCoords(vertices[offset + i], coords[i].first, coords[i].second);
}

void ShapeFactory::DefineFace(VertexList& vertices, int offset, const glm::vec3 positions[],
                              const std::vector<int>& vertexIndices,
                              const std::vector<std::pair<float, float>>& textureCoords)
{
    if (offset + vertexIndices.size() > vertices.size())
        throw GrafException("Vertex indices exceed vertex list size");
    for (size_t i = 0; i < vertexIndices.size(); i++)
        vertices[offset + i].position = positions[vertexIndices[i]];
    AssignTextureCoords(vertices, offset, textureCoords);
}
```

`offset` is a C++ `int`; in `offset + coords.size()` and in
`vertices[offset + i]` it is converted to `size_t` (64-bit unsigned), so
both the bounds check and the element index are computed modulo `2^64`.
That conversion is modelled exactly: `sizeT offset` is the converted
offset, and every `+` in `size_t` reduces modulo `SIZE_T_MOD`.
`std::vector::operator[]` outside the bounds of the vector, and indexing
the raw `positions[]` array with a selector outside the position table,
are undefined behaviour, modelled by the `undefined` outcome.  A thrown
exception leaves the callers vector in its current (possibly partially
written) state, which the `rangeError` outcome carries.

The vertex payload types are abstract (`P` for the position, `T` for one
texture-coordinate pair): the helpers copy the values without inspecting
them. -/

/-- Range of `size_t` on the target platform (64-bit). -/
def SIZE_T_MOD : Nat := 2 ^ 64

/-- The value of a C++ `int` after the integral conversion to `size_t`. -/
def sizeT (n : Int) : Nat := (n % (SIZE_T_MOD : Int)).toNat

/-- A `graf::Vertex`: a position and a texture-coordinate pair. -/
structure Vertex (P T : Type) where
  position : P
  texture : T
  deriving DecidableEq, Repr

/-- `ShapeFactory::SetTextureCoords`: assigns both texture components of
one vertex. -/
def SetTextureCoords (v : Vertex P T) (st : T) : Vertex P T :=
  { v with texture := st }

/-- Result of a helper call on a vertex vector: normal return, a thrown
`GrafException` (carrying the vector state at the throw, since the C++
vector is modified in place), or undefined behaviour from an
out-of-bounds access. -/
inductive HelperResult (P T : Type) where
  | ok (vertices : List (Vertex P T))
  | rangeError (vertices : List (Vertex P T))
  | undefined
  deriving DecidableEq, Repr

/-- The write loop of `AssignTextureCoords`
(`SetTextureCoords(vertices[offset + i], ...)` for `i` ascending). -/
def assignCoordsLoop (vertices : List (Vertex P T)) (base : Nat) :
    List T → Nat → HelperResult P T
  | [], _ => .ok vertices
  | c :: rest, i =>
    let idx := (base + i) % SIZE_T_MOD
    if h : idx < vertices.length then
      assignCoordsLoop (vertices.set idx (SetTextureCoords (vertices.get ⟨idx, h⟩) c))
        base rest (i + 1)
    else .undefined

/-- `ShapeFactory::AssignTextureCoords`. -/
def AssignTextureCoords (vertices : List (Vertex P T)) (offset : Int)
    (coords : List T) : HelperResult P T :=
  if (sizeT offset + coords.length) % SIZE_T_MOD > vertices.length then
    .rangeError vertices
  else assignCoordsLoop vertices (sizeT offset) coords 0

/-- The position-write loop of `DefineFace`
(`vertices[offset + i].position = positions[vertexIndices[i]]`). -/
def defineFaceLoop (vertices : List (Vertex P T)) (base : Nat) (positions : List P) :
    List Int → Nat → HelperResult P T
  | [], _ => .ok vertices
  | sel :: rest, i =>
    let idx := (base + i) % SIZE_T_MOD
    if h : idx < vertices.length then
      if hsel : 0 ≤ sel ∧ sel.toNat < positions.length then
        defineFaceLoop
          (vertices.set idx { vertices.get ⟨idx, h⟩ with
            position := positions.get ⟨sel.toNat, hsel.2⟩ })
          base positions rest (i + 1)
      else .undefined
    else .undefined

/-- `ShapeFactory::DefineFace`. -/
def DefineFace (vertices : List (Vertex P T)) (offset : Int) (positions : List P)
    (vertexIndices : List Int) (textureCoords : List T) : HelperResult P T :=
  if (sizeT offset + vertexIndices.length) % SIZE_T_MOD > vertices.length then
    .rangeError vertices
  else
    match defineFaceLoop vertices (sizeT offset) positions vertexIndices 0 with
    | .ok vs => AssignTextureCoords vs offset textureCoords
    | .rangeError vs => .rangeError vs
    | .undefined => .undefined

/-- A sample four-entry vertex list over `Nat` payloads, used to
instantiate the helper theorems on concrete inputs. -/
def sampleVertices4 : List (Vertex Nat Nat) :=
  [⟨0, 0⟩, ⟨1, 1⟩, ⟨2, 2⟩, ⟨3, 3⟩]

/-! ## Theorems -/

theorem generateFaceIndices_eq_append (indices : List Nat) (n offset : Nat) :
    GenerateFaceIndices indices n offset = indices ++ faceBlocks offset n := by
  induction n generalizing indices with
  | zero => simp [GenerateFaceIndices, faceBlocks]
  | succ n ih =>
    simp only [GenerateFaceIndices, List.range_succ, List.foldl_append, List.foldl_cons,
      List.foldl_nil, faceBlocks]
    rw [← GenerateFaceIndices, ih, List.append_assoc]

theorem faceBlocks_length (offset n : Nat) : (faceBlocks offset n).length = 6 * n := by
  induction n with
  | zero => rfl
  | succ n ih => simp [faceBlocks, faceBlock, ih, Nat.mul_succ]

theorem faceBlocks_extract (offset n i : Nat) (h : i < n) :
    ((faceBlocks offset n).drop (6 * i)).take 6 = faceBlock offset i := by
  induction n with
  | zero => omega
  | succ n ih =>
    rcases Nat.lt_succ_iff_lt_or_eq.mp h with h' | h'
    · rw [faceBlocks, List.drop_append_of_le_length (by rw [faceBlocks_length]; omega),
        List.take_append_of_le_length (by simp [faceBlocks_length]; omega), ih h']
    · subst h'
      rw [faceBlocks, show 6 * i = (faceBlocks offset i).length from
        (faceBlocks_length offset i).symm, List.drop_left]
      simp [faceBlock]

/-! ## Claims C1, C6, C7, C8 -/

/-- Claim C1: for every faceCount `N ≥ 0` and starting offset `b`,
`GenerateFaceIndices` appends exactly `6 * N` indices, leaving the
previously present entries unchanged, and for each face `i < N` the two
appended triangles are `(b+4i, b+4i+2, b+4i+1)` and `(b+4i, b+4i+3, b+4i+2)`,
in that order. -/
theorem C1_generateFaceIndices_spec (indices : List Nat) (N b : Nat) :
    GenerateFaceIndices indices N b = indices ++ faceBlocks b N ∧
    (GenerateFaceIndices indices N b).length = indices.length + 6 * N ∧
    ∀ i, i < N →
      ((faceBlocks b N).drop (6 * i)).take 6 =
        [b + 4 * i, b + 4 * i + 2, b + 4 * i + 1,
         b + 4 * i, b + 4 * i + 3, b + 4 * i + 2] := by
  refine ⟨generateFaceIndices_eq_append indices N b, ?_, ?_⟩
  · rw [generateFaceIndices_eq_append, List.length_append, faceBlocks_length]
  · intro i hi
    rw [faceBlocks_extract b N i hi]
    simp [faceBlock, Nat.mul_comm]

/-- Witness for C1 at `indices = [7]`, `N = 2`, `b = 5`. -/
theorem C1_generateFaceIndices_spec_witness :
    GenerateFaceIndices [7] 2 5 = [7] ++ faceBlocks 5 2 ∧
    ((faceBlocks 5 2).drop 6).take 6 = [9, 11, 10, 9, 12, 11] := by
  refine ⟨(C1_generateFaceIndices_spec [7] 2 5).1, ?_⟩
  have h := (C1_generateFaceIndices_spec [7] 2 5).2.2 1 (by decide)
  simpa using h

/-- Claim C6: `Draw` fails with the InvalidState error whenever no index
buffer has been set; after `SetIndexBuffer` with an index buffer whose
`Create` uploaded `size` bytes, `Draw` issues exactly one triangle-list
draw of `size / 4` (truncating division) 32-bit unsigned indices starting
at offset 0. -/
theorem C6_draw_spec (va : VertexArrayObject) (b : IndexBuffer)
    (data : Option (List Nat)) (size : Int) (genId : Nat) :
    (va.mp_ib = none → va.Draw = .error .invalidState) ∧
    ((b.Create data size genId).1 = none →
      ((va.SetIndexBuffer (some (b.Create data size genId).2.1)).2).Draw =
        .ok (.drawElements .triangles (size / 4) .unsignedInt 0)) := by
  constructor
  · intro h
    simp [VertexArrayObject.Draw, h]
  · intro h
    by_cases h1 : data = none ∨ size ≤ 0
    · simp [IndexBuffer.Create, if_pos h1] at h
    · by_cases h2 : genId = 0
      · simp [IndexBuffer.Create, if_neg h1, if_pos h2] at h
      · simp [IndexBuffer.Create, if_neg h1, if_neg h2,
          VertexArrayObject.SetIndexBuffer, VertexArrayObject.Draw,
          IndexBuffer.getIndexCount]

/-- Witness for C6: a fresh VAO has no index buffer and fails InvalidState;
after setting a buffer created from 12 bytes, the draw uses 3 indices. -/
theorem C6_draw_spec_witness :
    (freshVAO 1).Draw = .error .invalidState ∧
    (((freshVAO 1).SetIndexBuffer
        (some (IndexBuffer.Create ⟨0, 0⟩ (some [1, 2, 3]) 12 5).2.1)).2).Draw =
      .ok (.drawElements .triangles 3 .unsignedInt 0) :=
  ⟨(C6_draw_spec (freshVAO 1) ⟨0, 0⟩ (some [1, 2, 3]) 12 5).1 rfl,
   (C6_draw_spec (freshVAO 1) ⟨0, 0⟩ (some [1, 2, 3]) 12 5).2 rfl⟩

/-- Claim C7: `VertexBuffer::Create` and `IndexBuffer::Create` fail with
the InvalidArgument error whenever the data pointer is null or
`size ≤ 0`, and in that failing case no GPU buffer object is allocated
(no GL call is issued and the buffer state is unchanged). -/
theorem C7_create_invalid_argument (vb : VertexBuffer) (ib : IndexBuffer)
    (data : Option (List Nat)) (size : Int) (genId : Nat)
    (h : data = none ∨ size ≤ 0) :
    vb.Create data size genId = (some .invalidArgument, vb, []) ∧
    ib.Create data size genId = (some .invalidArgument, ib, []) := by
  constructor
  · simp only [VertexBuffer.Create, if_pos h]
  · simp only [IndexBuffer.Create, if_pos h]

/-- Witness for C7 at a null data pointer with `size = 10` and at a
non-null pointer with `size = 0`. -/
theorem C7_create_invalid_argument_witness :
    VertexBuffer.Create ⟨0⟩ none 10 7 = (some .invalidArgument, ⟨0⟩, []) ∧
    IndexBuffer.Create ⟨0, 0⟩ (some [1]) 0 7 = (some .invalidArgument, ⟨0, 0⟩, []) :=
  ⟨(C7_create_invalid_argument ⟨0⟩ ⟨0, 0⟩ none 10 7 (Or.inl rfl)).1,
   (C7_create_invalid_argument ⟨0⟩ ⟨0, 0⟩ (some [1]) 0 7 (Or.inr (by decide))).2⟩

/-- Claim C8: `Release` (both buffer variants) deletes the GL object only
when the handle is live, resets the handle to the empty state, and is
idempotent: a second `Release` is a no-op and `Release ∘ Release` has the
same effect on the buffer state as a single `Release`. -/
theorem C8_release_idempotent (vb : VertexBuffer) (ib : IndexBuffer) :
    vb.Release.1.m_id = 0 ∧
    vb.Release.1.Release = (vb.Release.1, []) ∧
    vb.Release.2 = (if vb.m_id = 0 then [] else [.deleteBuffers vb.m_id]) ∧
    ib.Release.1.m_id = 0 ∧
    ib.Release.1.Release = (ib.Release.1, []) ∧
    ib.Release.2 = (if ib.m_id = 0 then [] else [.deleteBuffers ib.m_id]) := by
  obtain ⟨id⟩ := vb
  obtain ⟨id2, cnt⟩ := ib
  by_cases h : id = 0 <;> by_cases h2 : id2 = 0 <;>
    simp [VertexBuffer.Release, IndexBuffer.Release, h, h2]

/-! ## Attribute-layout lemmas (for claim C3) -/

theorem foldl_addAttr_stride (adds : List VertexAttributeType) (s : VertexArrayObject) :
    (adds.foldl VertexArrayObject.AddVertexAttribute s).m_stride =
      s.m_stride + (adds.map getTypeSize).sum := by
  induction adds generalizing s with
  | nil => simp
  | cons t rest ih =>
    simp only [List.foldl_cons, ih, VertexArrayObject.AddVertexAttribute,
      List.map_cons, List.sum_cons]
    omega

theorem foldl_addAttr_attributes (adds : List VertexAttributeType) (s : VertexArrayObject) :
    (adds.foldl VertexArrayObject.AddVertexAttribute s).m_attributes =
      s.m_attributes ++ adds := by
  induction adds generalizing s with
  | nil => simp
  | cons t rest ih =>
    simp [List.foldl_cons, ih, VertexArrayObject.AddVertexAttribute]

theorem activateAux_length (attrs : List VertexAttributeType) (i0 loc0 stride : Nat) :
    (activateAux attrs i0 loc0 stride).length = attrs.length := by
  induction attrs generalizing i0 loc0 with
  | nil => rfl
  | cons t rest ih => simp [activateAux, ih]

theorem activateAux_getElem? (attrs : List VertexAttributeType)
    (i0 loc0 stride : Nat) (j : Nat) (hj : j < attrs.length) :
    (activateAux attrs i0 loc0 stride)[j]? =
      some ⟨i0 + j, getTypeSize (attrs.get ⟨j, hj⟩) / 4,
            loc0 + ((attrs.take j).map getTypeSize).sum, stride⟩ := by
  induction attrs generalizing i0 loc0 j with
  | nil => simp at hj
  | cons t rest ih =>
    cases j with
    | zero => simp [activateAux]
    | succ j =>
      have hj' : j < rest.length := by simpa using hj
      rw [activateAux, List.getElem?_cons_succ, ih (i0 + 1) (loc0 + getTypeSize t) j hj']
      simp only [Option.some.injEq, AttribPointer.mk.injEq, List.get_cons_succ,
        List.take_succ_cons, List.map_cons, List.sum_cons, true_and, and_true]
      omega

/-- Claim C3: for every sequence of `AddVertexAttribute` calls on a freshly
created `VertexArrayObject`, the stored stride equals the sum of the fixed
byte sizes of the added attribute kinds, and `ActivateAttributes` registers
attribute number `j` at a byte offset equal to the prefix sum of the sizes
of attributes `0 .. j-1`, with the total stride. -/
theorem C3_attribute_layout (adds : List VertexAttributeType) (genId : Nat) :
    ((adds.foldl VertexArrayObject.AddVertexAttribute (freshVAO genId)).m_stride =
      (adds.map getTypeSize).sum) ∧
    (adds ≠ [] →
      ∃ regs,
        (adds.foldl VertexArrayObject.AddVertexAttribute
            (freshVAO genId)).ActivateAttributes = .ok regs ∧
        regs.length = adds.length ∧
        ∀ j (hj : j < adds.length),
          regs[j]? = some ⟨j, getTypeSize (adds.get ⟨j, hj⟩) / 4,
            ((adds.take j).map getTypeSize).sum, (adds.map getTypeSize).sum⟩) := by
  have hstride : (adds.foldl VertexArrayObject.AddVertexAttribute
      (freshVAO genId)).m_stride = (adds.map getTypeSize).sum := by
    simpa [freshVAO] using foldl_addAttr_stride adds (freshVAO genId)
  have hattrs : (adds.foldl VertexArrayObject.AddVertexAttribute
      (freshVAO genId)).m_attributes = adds := by
    simpa [freshVAO] using foldl_addAttr_attributes adds (freshVAO genId)
  refine ⟨hstride, fun hne => ?_⟩
  refine ⟨activateAux adds 0 0 (adds.map getTypeSize).sum, ?_, ?_, ?_⟩
  · simp only [VertexArrayObject.ActivateAttributes, hattrs, hstride, if_neg hne]
  · exact activateAux_length adds 0 0 _
  · intro j hj
    rw [activateAux_getElem? adds 0 0 _ j hj]
    simp

/-- Witness for C3 at the Position + Texture layout the factories use. -/
theorem C3_attribute_layout_witness :
    (([VertexAttributeType.Position, VertexAttributeType.Texture].foldl
        VertexArrayObject.AddVertexAttribute (freshVAO 1)).m_stride =
      ([VertexAttributeType.Position, VertexAttributeType.Texture].map getTypeSize).sum) ∧
    ∃ regs,
      ([VertexAttributeType.Position, VertexAttributeType.Texture].foldl
          VertexArrayObject.AddVertexAttribute (freshVAO 1)).ActivateAttributes = .ok regs ∧
      regs.length = 2 ∧
      ∀ j (hj : j < ([VertexAttributeType.Position,
          VertexAttributeType.Texture] : List VertexAttributeType).length),
        regs[j]? = some ⟨j,
          getTypeSize (([VertexAttributeType.Position,
            VertexAttributeType.Texture] : List VertexAttributeType).get ⟨j, hj⟩) / 4,
          (([VertexAttributeType.Position,
            VertexAttributeType.Texture] : List VertexAttributeType).take j
              |>.map getTypeSize).sum,
          ([VertexAttributeType.Position,
            VertexAttributeType.Texture].map getTypeSize).sum⟩ :=
  ⟨(C3_attribute_layout [.Position, .Texture] 1).1,
   (C3_attribute_layout [.Position, .Texture] 1).2 (by decide)⟩

/-- Claim C5: for every kind with a registered factory, two successive
`createShape` calls return the identical shared drawable and the factory
is invoked at most once (the second call leaves the whole manager state
unchanged, so it skips factory invocation entirely); for every kind value
with no registered factory (and hence never cached), `createShape` fails
with the UnknownShape error and leaves the cache unchanged. -/
theorem C5_manager_caching (m : ShapeFactoryManager) (k : Int) :
    (k ∈ registeredShapeKinds →
      ∃ g, (m.createShape k).1 = .ok g ∧
        (m.createShape k).2.createShape k = (.ok g, (m.createShape k).2) ∧
        (m.createShape k).2.factoryInvocations ≤ m.factoryInvocations + 1) ∧
    (k ∉ registeredShapeKinds → m.shapeCache.lookup k = none →
      m.createShape k = (.error .unknownShape, m)) := by
  constructor
  · intro hreg
    match hcache : m.shapeCache.lookup k with
    | some g =>
      have h1 : m.createShape k = (.ok g, m) := by
        simp [ShapeFactoryManager.createShape, hcache]
      exact ⟨g, by rw [h1], by rw [h1]; exact h1, by rw [h1]; exact Nat.le_succ _⟩
    | none =>
      have h1 : m.createShape k =
          (.ok m.nextDrawableId,
           ⟨(k, m.nextDrawableId) :: m.shapeCache,
            m.nextDrawableId + 1, m.factoryInvocations + 1⟩) := by
        simp [ShapeFactoryManager.createShape, hcache, if_pos hreg]
      have h2 : (⟨(k, m.nextDrawableId) :: m.shapeCache,
            m.nextDrawableId + 1, m.factoryInvocations + 1⟩ :
            ShapeFactoryManager).createShape k =
          (.ok m.nextDrawableId,
           ⟨(k, m.nextDrawableId) :: m.shapeCache,
            m.nextDrawableId + 1, m.factoryInvocations + 1⟩) := by
        simp [ShapeFactoryManager.createShape, List.lookup]
      exact ⟨m.nextDrawableId, by rw [h1], by rw [h1]; exact h2, by rw [h1]⟩
  · intro hreg hcache
    simp [ShapeFactoryManager.createShape, hcache, if_neg hreg]

/-- Witness for C5: from an empty manager state, kind 2 (Cube) is created
once and then served from the cache; kind 9 has no factory and fails. -/
theorem C5_manager_caching_witness :
    (∃ g, ((⟨[], 0, 0⟩ : ShapeFactoryManager).createShape 2).1 = .ok g ∧
      ((⟨[], 0, 0⟩ : ShapeFactoryManager).createShape 2).2.createShape 2 =
        (.ok g, ((⟨[], 0, 0⟩ : ShapeFactoryManager).createShape 2).2) ∧
      ((⟨[], 0, 0⟩ : ShapeFactoryManager).createShape 2).2.factoryInvocations ≤ 1) ∧
    ((⟨[], 0, 0⟩ : ShapeFactoryManager).createShape 9 =
      (.error .unknownShape, (⟨[], 0, 0⟩ : ShapeFactoryManager))) :=
  ⟨(C5_manager_caching ⟨[], 0, 0⟩ 2).1 (by decide),
   (C5_manager_caching ⟨[], 0, 0⟩ 9).2 (by decide) rfl⟩

/-- Claim C2: with the angle step fixed at 10 degrees, the circle factory
produces 360/10 = 36 vertices, vertex `i` at
`(cos(10·i deg), sin(10·i deg), 0)` — in particular vertex 0 at (1,0,0)
and vertex 9 at (0,1,0) — and an index list of length 3·(36−2) = 102 in
which every consecutive triple (one triangle) contains vertex 0. -/
theorem C2_circle_spec :
    circleVertexCount 10 = 36 ∧
    (∀ i : Nat, circleVertexPos 10 i =
      (Real.cos (glmRadians ((10 * i : Nat) : ℝ)),
       Real.sin (glmRadians ((10 * i : Nat) : ℝ)), 0)) ∧
    circleVertexPos 10 0 = (1, 0, 0) ∧
    circleVertexPos 10 9 = (0, 1, 0) ∧
    (circleIndices 10).length = 3 * (circleVertexCount 10 - 2) ∧
    (circleIndices 10).length = 102 ∧
    trianglesContainZero (circleIndices 10) = true := by
  refine ⟨rfl, fun i => rfl, ?_, ?_, by decide, by decide, by decide⟩
  · simp [circleVertexPos, glmRadians]
  · have h90 : (((10 * 9 : Nat) : ℝ)) * (Real.pi / 180) = Real.pi / 2 := by
      push_cast
      ring
    simp only [circleVertexPos, glmRadians, h90]
    rw [Real.cos_pi_div_two, Real.sin_pi_div_two]

/-- Claim C9: for each of the five concrete factories, every entry of the
index list passed to `createVAOFromData` is strictly below the length of
the vertex list passed with it (6, 36, 24, 16 and 24 vertices
respectively), so every generated triangle index refers to an existing
vertex. -/
theorem C9_indices_in_bounds :
    (squareIndices.all fun n => decide (n < squareVertexCount)) = true ∧
    ((circleIndices 10).all fun n => decide (n < circleVertexCount 10)) = true ∧
    (cubeIndices.all fun n => decide (n < cubeVertexCount)) = true ∧
    (pyramidIndices.all fun n => decide (n < pyramidVertexCount)) = true ∧
    (frustumIndices.all fun n => decide (n < frustumVertexCount)) = true := by
  decide

theorem sizeT_of_nonneg (n : Int) (h0 : 0 ≤ n) (h1 : n < (SIZE_T_MOD : Int)) :
    sizeT n = n.toNat := by
  rw [sizeT, Int.emod_eq_of_lt h0 h1]

theorem sizeT_of_neg (n : Int) (h0 : -(SIZE_T_MOD : Int) ≤ n) (h1 : n < 0) :
    (sizeT n : Int) = (SIZE_T_MOD : Int) + n := by
  have hnm : (0 : Int) ≤ n + (SIZE_T_MOD : Int) := by omega
  have hlt : n + (SIZE_T_MOD : Int) < (SIZE_T_MOD : Int) := by omega
  have hmod : n % (SIZE_T_MOD : Int) = n + (SIZE_T_MOD : Int) := by
    have h2 : (n + (SIZE_T_MOD : Int) * 1) % (SIZE_T_MOD : Int) = n % (SIZE_T_MOD : Int) :=
      Int.add_mul_emod_self_left n (SIZE_T_MOD : Int) 1
    rw [mul_one] at h2
    rw [← h2, Int.emod_eq_of_lt hnm hlt]
  rw [sizeT, hmod, Int.toNat_of_nonneg hnm]
  ring

theorem assignCoordsLoop_ok {P T : Type} (coords : List T) (vs : List (Vertex P T))
    (base i0 : Nat) (hlen : vs.length < SIZE_T_MOD)
    (hin : base + i0 + coords.length ≤ vs.length) :
    ∃ vs', assignCoordsLoop vs base coords i0 = .ok vs' ∧
      vs'.length = vs.length ∧
      ∀ j, (j < base + i0 ∨ base + i0 + coords.length ≤ j) → vs'[j]? = vs[j]? := by
  induction coords generalizing vs i0 with
  | nil => exact ⟨vs, rfl, rfl, fun j _ => rfl⟩
  | cons c rest ih =>
    have hbound : base + i0 < vs.length := by
      simp only [List.length_cons] at hin
      omega
    have hidx : (base + i0) % SIZE_T_MOD = base + i0 := Nat.mod_eq_of_lt (by omega)
    rw [assignCoordsLoop]
    simp only [hidx, hbound, dif_pos]
    set vs1 := vs.set (base + i0)
      (SetTextureCoords (vs.get ⟨base + i0, hbound⟩) c) with hvs1
    have hlen1 : vs1.length = vs.length := by rw [hvs1, List.length_set]
    obtain ⟨vs', h1, h2, h3⟩ := ih vs1 (i0 + 1) (by omega)
      (by rw [hlen1]; simp only [List.length_cons] at hin; omega)
    refine ⟨vs', h1, h2.trans hlen1, fun j hj => ?_⟩
    have hframe1 : vs'[j]? = vs1[j]? := by
      refine h3 j ?_
      simp only [List.length_cons] at hj
      omega
    have hne : base + i0 ≠ j := by
      simp only [List.length_cons] at hj
      omega
    rw [hframe1, hvs1, List.getElem?_set_ne hne]

theorem assignCoordsLoop_ne_rangeError {P T : Type} (coords : List T)
    (vs : List (Vertex P T)) (base i0 : Nat) (e : List (Vertex P T)) :
    assignCoordsLoop vs base coords i0 ≠ .rangeError e := by
  induction coords generalizing vs i0 with
  | nil => simp [assignCoordsLoop]
  | cons c rest ih =>
    rw [assignCoordsLoop]
    split
    · exact ih _ _
    · simp

theorem assignCoordsLoop_undefined {P T : Type} (c : T) (rest : List T)
    (vs : List (Vertex P T)) (base i0 : Nat)
    (h : ¬ (base + i0) % SIZE_T_MOD < vs.length) :
    assignCoordsLoop vs base (c :: rest) i0 = .undefined := by
  rw [assignCoordsLoop]
  exact dif_neg h

theorem defineFaceLoop_ok {P T : Type} (sels : List Int) (vs : List (Vertex P T))
    (base i0 : Nat) (positions : List P) (hlen : vs.length < SIZE_T_MOD)
    (hin : base + i0 + sels.length ≤ vs.length)
    (hsel : ∀ s ∈ sels, 0 ≤ s ∧ s.toNat < positions.length) :
    ∃ vs', defineFaceLoop vs base positions sels i0 = .ok vs' ∧
      vs'.length = vs.length ∧
      ∀ j, (j < base + i0 ∨ base + i0 + sels.length ≤ j) → vs'[j]? = vs[j]? := by
  induction sels generalizing vs i0 with
  | nil => exact ⟨vs, rfl, rfl, fun j _ => rfl⟩
  | cons sel rest ih =>
    have hbound : base + i0 < vs.length := by
      simp only [List.length_cons] at hin
      omega
    have hidx : (base + i0) % SIZE_T_MOD = base + i0 := Nat.mod_eq_of_lt (by omega)
    have hs0 : 0 ≤ sel ∧ sel.toNat < positions.length :=
      hsel sel (List.mem_cons_self sel rest)
    rw [defineFaceLoop]
    simp only [hidx, hbound, dif_pos, hs0]
    set vs1 := vs.set (base + i0)
      { vs.get ⟨base + i0, hbound⟩ with
        position := positions.get ⟨sel.toNat, hs0.2⟩ } with hvs1
    have hlen1 : vs1.length = vs.length := by rw [hvs1, List.length_set]
    obtain ⟨vs', h1, h2, h3⟩ := ih vs1 (i0 + 1) (by omega)
      (by rw [hlen1]; simp only [List.length_cons] at hin; omega)
      (fun s hs => hsel s (List.mem_cons_of_mem sel hs))
    refine ⟨vs', h1, h2.trans hlen1, fun j hj => ?_⟩
    have hframe1 : vs'[j]? = vs1[j]? := by
      refine h3 j ?_
      simp only [List.length_cons] at hj
      omega
    have hne : base + i0 ≠ j := by
      simp only [List.length_cons] at hj
      omega
    rw [hframe1, hvs1, List.getElem?_set_ne hne]

theorem defineFaceLoop_ne_rangeError {P T : Type} (sels : List Int)
    (vs : List (Vertex P T)) (base i0 : Nat) (positions : List P)
    (e : List (Vertex P T)) :
    defineFaceLoop vs base positions sels i0 ≠ .rangeError e := by
  induction sels generalizing vs i0 with
  | nil => simp [defineFaceLoop]
  | cons sel rest ih =>
    rw [defineFaceLoop]
    split
    · split
      · exact ih _ _
      · simp
    · simp

theorem defineFaceLoop_undefined {P T : Type} (sel : Int) (rest : List Int)
    (vs : List (Vertex P T)) (base i0 : Nat) (positions : List P)
    (h : ¬ (base + i0) % SIZE_T_MOD < vs.length) :
    defineFaceLoop vs base positions (sel :: rest) i0 = .undefined := by
  rw [defineFaceLoop]
  exact dif_neg h

/-- Counterexample to claim C4 as stated: at `offset = -2` with one
coordinate and one vertex, `offset + count = -1 ≤ 1 = len(vertices)`, so
the claim predicts success, but the implicit `int → size_t` conversion
makes the bounds check compare `2^64 - 1 > 1` and the call throws the
out-of-range error. -/
theorem C4_counterexample :
    ((-2 : Int) + ([5] : List Nat).length ≤ (([⟨0, 0⟩] : List (Vertex Nat Nat))).length) ∧
    AssignTextureCoords ([⟨0, 0⟩] : List (Vertex Nat Nat)) (-2) [5] =
      .rangeError [⟨0, 0⟩] := by
  constructor
  · decide
  · decide

/-- Claim C4 (amended): for every call with a NON-NEGATIVE offset,
`AssignTextureCoords` fails with the OutOfRange error exactly when
`offset + count > len(vertices)` (count = number of coords) and
`DefineFace` fails with the OutOfRange error exactly when
`offset + count > len(vertices)` for `count = max(#selectors, #texCoords)`
(which equals the number of selectors whenever the two lists have equal
length, as in every call in the program); and in every call — failing or
succeeding — every vertex at a position outside `[offset, offset + count)`
is left unchanged.  (For negative offsets see C10; the selectors must
index inside the position table, else the position reads are undefined
behaviour.) -/
theorem C4_helpers_bounds_amended {P T : Type} (vertices : List (Vertex P T))
    (offset : Int) (coords : List T) (positions : List P)
    (vertexIndices : List Int) (textureCoords : List T)
    (h0 : 0 ≤ offset)
    (hlen : vertices.length < SIZE_T_MOD)
    (hc : offset.toNat + coords.length < SIZE_T_MOD)
    (hm : offset.toNat + max vertexIndices.length textureCoords.length < SIZE_T_MOD)
    (hsel : ∀ s ∈ vertexIndices, 0 ≤ s ∧ s.toNat < positions.length) :
    (AssignTextureCoords vertices offset coords = .rangeError vertices ↔
      vertices.length < offset.toNat + coords.length) ∧
    (offset.toNat + coords.length ≤ vertices.length →
      ∃ vs', AssignTextureCoords vertices offset coords = .ok vs' ∧
        vs'.length = vertices.length ∧
        ∀ j, (j < offset.toNat ∨ offset.toNat + coords.length ≤ j) →
          vs'[j]? = vertices[j]?) ∧
    ((∃ e, DefineFace vertices offset positions vertexIndices textureCoords =
        .rangeError e) ↔
      vertices.length <
        offset.toNat + max vertexIndices.length textureCoords.length) ∧
    (∀ e, DefineFace vertices offset positions vertexIndices textureCoords =
        .rangeError e →
      ∀ j, (j < offset.toNat ∨
          offset.toNat + max vertexIndices.length textureCoords.length ≤ j) →
        e[j]? = vertices[j]?) ∧
    (offset.toNat + max vertexIndices.length textureCoords.length ≤ vertices.length →
      ∃ vs', DefineFace vertices offset positions vertexIndices textureCoords =
          .ok vs' ∧
        vs'.length = vertices.length ∧
        ∀ j, (j < offset.toNat ∨
            offset.toNat + max vertexIndices.length textureCoords.length ≤ j) →
          vs'[j]? = vertices[j]?) := by
  have hofflt : offset < (SIZE_T_MOD : Int) := by omega
  have hb : sizeT offset = offset.toNat := sizeT_of_nonneg offset h0 hofflt
  have hA : AssignTextureCoords vertices offset coords =
      if vertices.length < offset.toNat + coords.length then .rangeError vertices
      else assignCoordsLoop vertices offset.toNat coords 0 := by
    rw [AssignTextureCoords, hb, Nat.mod_eq_of_lt hc]
  have hD : DefineFace vertices offset positions vertexIndices textureCoords =
      if vertices.length < offset.toNat + vertexIndices.length then
        .rangeError vertices
      else
        match defineFaceLoop vertices offset.toNat positions vertexIndices 0 with
        | .ok vs => AssignTextureCoords vs offset textureCoords
        | .rangeError vs => .rangeError vs
        | .undefined => .undefined := by
    rw [DefineFace, hb, Nat.mod_eq_of_lt (by omega)]
  refine ⟨?_, ?_, ?_, ?_, ?_⟩
  · by_cases hchk : vertices.length < offset.toNat + coords.length
    · rw [hA, if_pos hchk]
      exact ⟨fun _ => hchk, fun _ => rfl⟩
    · rw [hA, if_neg hchk]
      refine ⟨fun h => absurd h (assignCoordsLoop_ne_rangeError _ _ _ _ _),
        fun h => absurd h hchk⟩
  · intro hle
    have hchk : ¬ vertices.length < offset.toNat + coords.length := by omega
    obtain ⟨vs', hok, hlen', hframe⟩ :=
      assignCoordsLoop_ok coords vertices offset.toNat 0 hlen (by omega)
    exact ⟨vs', by rw [hA, if_neg hchk]; exact hok, hlen',
      fun j hj => hframe j (by omega)⟩
  · by_cases hchk1 : vertices.length < offset.toNat + vertexIndices.length
    · rw [hD, if_pos hchk1]
      exact ⟨fun _ => by omega, fun _ => ⟨vertices, rfl⟩⟩
    · obtain ⟨vs1, hok1, hlen1, hframe1⟩ :=
        defineFaceLoop_ok vertexIndices vertices offset.toNat 0 positions hlen
          (by omega) hsel
      have hA1 : AssignTextureCoords vs1 offset textureCoords =
          if vs1.length < offset.toNat + textureCoords.length then .rangeError vs1
          else assignCoordsLoop vs1 offset.toNat textureCoords 0 := by
        rw [AssignTextureCoords, hb, Nat.mod_eq_of_lt (by omega)]
      have hDval : DefineFace vertices offset positions vertexIndices textureCoords =
          AssignTextureCoords vs1 offset textureCoords := by
        rw [hD, if_neg hchk1, hok1]
      rw [hDval]
      by_cases hchk2 : vs1.length < offset.toNat + textureCoords.length
      · rw [hA1, if_pos hchk2]
        exact ⟨fun _ => by omega, fun _ => ⟨vs1, rfl⟩⟩
      · rw [hA1, if_neg hchk2]
        constructor
        · rintro ⟨e, he⟩
          exact absurd he (assignCoordsLoop_ne_rangeError _ _ _ _ _)
        · intro h
          omega
  · intro e he j hj
    by_cases hchk1 : vertices.length < offset.toNat + vertexIndices.length
    · rw [hD, if_pos hchk1] at he
      cases he
      rfl
    · obtain ⟨vs1, hok1, hlen1, hframe1⟩ :=
        defineFaceLoop_ok vertexIndices vertices offset.toNat 0 positions hlen
          (by omega) hsel
      have hA1 : AssignTextureCoords vs1 offset textureCoords =
          if vs1.length < offset.toNat + textureCoords.length then .rangeError vs1
          else assignCoordsLoop vs1 offset.toNat textureCoords 0 := by
        rw [AssignTextureCoords, hb, Nat.mod_eq_of_lt (by omega)]
      have hDval : DefineFace vertices offset positions vertexIndices textureCoords =
          AssignTextureCoords vs1 offset textureCoords := by
        rw [hD, if_neg hchk1, hok1]
      rw [hDval, hA1] at he
      by_cases hchk2 : vs1.length < offset.toNat + textureCoords.length
      · rw [if_pos hchk2] at he
        cases he
        exact hframe1 j (by omega)
      · rw [if_neg hchk2] at he
        exact absurd he (assignCoordsLoop_ne_rangeError _ _ _ _ _)
  · intro hle
    have hchk1 : ¬ vertices.length < offset.toNat + vertexIndices.length := by omega
    obtain ⟨vs1, hok1, hlen1, hframe1⟩ :=
      defineFaceLoop_ok vertexIndices vertices offset.toNat 0 positions hlen
        (by omega) hsel
    obtain ⟨vs2, hok2, hlen2, hframe2⟩ :=
      assignCoordsLoop_ok textureCoords vs1 offset.toNat 0 (by omega) (by omega)
    have hA1 : AssignTextureCoords vs1 offset textureCoords =
        if vs1.length < offset.toNat + textureCoords.length then .rangeError vs1
        else assignCoordsLoop vs1 offset.toNat textureCoords 0 := by
      rw [AssignTextureCoords, hb, Nat.mod_eq_of_lt (by omega)]
    have hDval : DefineFace vertices offset positions vertexIndices textureCoords =
        AssignTextureCoords vs1 offset textureCoords := by
      rw [hD, if_neg hchk1, hok1]
    refine ⟨vs2, ?_, by omega, fun j hj => ?_⟩
    · rw [hDval, hA1, if_neg (by omega)]
      exact hok2
    · rw [hframe2 j (by omega), hframe1 j (by omega)]

/-- Witness for the amended C4 on concrete inputs: four vertices,
`offset = 1`, two coordinates, a two-entry position table with selectors
`[1, 0]` and two texture coordinates. -/
theorem C4_helpers_bounds_amended_witness :
    ∃ vs', DefineFace sampleVertices4 1 [10, 20] [1, 0] [7, 6] = .ok vs' ∧
      vs'.length = sampleVertices4.length ∧
      ∀ j, (j < (1 : Int).toNat ∨
          (1 : Int).toNat + max ([1, 0] : List Int).length
            ([7, 6] : List Nat).length ≤ j) →
        vs'[j]? = sampleVertices4[j]? := by
  have h := (C4_helpers_bounds_amended sampleVertices4 1 [9, 8] [10, 20] [1, 0] [7, 6]
    (by decide) (by norm_num [sampleVertices4, SIZE_T_MOD])
    (by norm_num [SIZE_T_MOD]) (by norm_num [SIZE_T_MOD])
    (by decide)).2.2.2.2
  exact h (by norm_num [sampleVertices4])

/-- Counterexample to claim C10 as stated: at `offset = -1` with three
coordinates and three vertices the converted bounds check compares
`(2^64 - 1 + 3) mod 2^64 = 2 > 3`, which is FALSE, so the helper does NOT
raise the out-of-range error; the first loop iteration then accesses
`vertices[2^64 - 1]`, outside the vertex list (undefined behaviour) — so
the helper neither fails nor writes only inside the bounds. -/
theorem C10_counterexample :
    ((-1 : Int) < 0) ∧
    AssignTextureCoords
        ([⟨0, 0⟩, ⟨1, 1⟩, ⟨2, 2⟩] : List (Vertex Nat Nat)) (-1) [5, 6, 7] =
      .undefined := by
  constructor
  · decide
  · decide

/-- Claim C10 (amended): for every call of `AssignTextureCoords` or
`DefineFace` with a negative offset (in the C++ `int` range, with the
count bounded by `2^31` and the vertex list by `2^62`), the helper raises
the out-of-range error exactly when `offset + count < 0` or
`offset + count > len(vertices)` (the signed offset is converted to an
unsigned size in the bounds comparison); in the remaining case
`0 ≤ offset + count ≤ len(vertices)` — which requires `count ≥ 1` — the
bounds check passes and the first vertex access is out of the bounds of
the vertex list: undefined behaviour, so the original claim that the
helpers never write outside the list does NOT hold. -/
theorem C10_negative_offset (P T : Type) (vertices : List (Vertex P T))
    (offset : Int) (coords : List T) (positions : List P)
    (vertexIndices : List Int) (textureCoords : List T)
    (hneg : offset < 0) (hlo : -(2 ^ 31) ≤ offset)
    (hc : (coords.length : Int) ≤ 2 ^ 31)
    (hs : (vertexIndices.length : Int) ≤ 2 ^ 31)
    (hlen : (vertices.length : Int) < 2 ^ 62) :
    (AssignTextureCoords vertices offset coords = .rangeError vertices ↔
      (offset + coords.length < 0 ∨
        (vertices.length : Int) < offset + coords.length)) ∧
    (0 ≤ offset + coords.length → offset + coords.length ≤ (vertices.length : Int) →
      AssignTextureCoords vertices offset coords = .undefined) ∧
    (DefineFace vertices offset positions vertexIndices textureCoords =
        .rangeError vertices ↔
      (offset + vertexIndices.length < 0 ∨
        (vertices.length : Int) < offset + vertexIndices.length)) ∧
    (0 ≤ offset + vertexIndices.length →
      offset + vertexIndices.length ≤ (vertices.length : Int) →
      DefineFace vertices offset positions vertexIndices textureCoords =
        .undefined) := by
  have hM : SIZE_T_MOD = 18446744073709551616 := by norm_num [SIZE_T_MOD]
  have hu : (sizeT offset : Int) = (SIZE_T_MOD : Int) + offset :=
    sizeT_of_neg offset (by simp only [hM]; push_cast; omega) hneg
  rw [hM] at hu
  push_cast at hu
  -- `sizeT offset` as a natural number is huge: at least `2^64 - 2^31`.
  have hbig : 18446744073709551616 - 2 ^ 31 ≤ sizeT offset ∧
      sizeT offset < 18446744073709551616 := by omega
  -- Generic analysis of one helper entry: the converted bounds check and,
  -- when it passes, the out-of-bounds first access.
  have key : ∀ (count : Nat), (count : Int) ≤ 2 ^ 31 →
      (((sizeT offset + count) % SIZE_T_MOD > vertices.length) ↔
        (offset + count < 0 ∨ (vertices.length : Int) < offset + count)) := by
    intro count hcount
    rw [hM]
    constructor
    · intro hgt
      by_cases hcase : offset + count < 0
      · exact Or.inl hcase
      · refine Or.inr ?_
        have hsum : sizeT offset + count =
            18446744073709551616 + (offset + count).toNat := by omega
        have hmod : (sizeT offset + count) % 18446744073709551616 =
            (offset + count).toNat % 18446744073709551616 := by
          rw [hsum, Nat.add_mod_left]
        rw [hmod, Nat.mod_eq_of_lt (by omega)] at hgt
        omega
    · intro hcase
      rcases hcase with hcase | hcase
      · have hnw : sizeT offset + count < 18446744073709551616 := by omega
        rw [Nat.mod_eq_of_lt hnw]
        omega
      · have hsum : sizeT offset + count =
            18446744073709551616 + (offset + count).toNat := by omega
        have hmod : (sizeT offset + count) % 18446744073709551616 =
            (offset + count).toNat % 18446744073709551616 := by
          rw [hsum, Nat.add_mod_left]
        rw [hmod, Nat.mod_eq_of_lt (by omega)]
        omega
  have hoobgt : vertices.length < (sizeT offset + 0) % SIZE_T_MOD := by
    rw [hM, Nat.add_zero, Nat.mod_eq_of_lt (by omega)]
    omega
  have hoob : ¬ (sizeT offset + 0) % SIZE_T_MOD < vertices.length := by omega
  refine ⟨?_, ?_, ?_, ?_⟩
  · rw [AssignTextureCoords]
    by_cases hchk : (sizeT offset + coords.length) % SIZE_T_MOD > vertices.length
    · rw [if_pos hchk]
      exact ⟨fun _ => (key coords.length hc).mp hchk, fun _ => rfl⟩
    · rw [if_neg hchk]
      refine ⟨fun h => absurd h (assignCoordsLoop_ne_rangeError _ _ _ _ _),
        fun h => absurd ((key coords.length hc).mpr h) hchk⟩
  · intro hge hle
    have hchk : ¬ (sizeT offset + coords.length) % SIZE_T_MOD > vertices.length :=
      fun h => by
        rcases (key coords.length hc).mp h with h' | h' <;> omega
    rw [AssignTextureCoords, if_neg hchk]
    cases coords with
    | nil =>
      simp only [List.length_nil, Nat.cast_zero, add_zero] at hge
      exact absurd hge (by omega)
    | cons c rest => exact assignCoordsLoop_undefined c rest vertices _ 0 hoob
  · rw [DefineFace]
    by_cases hchk : (sizeT offset + vertexIndices.length) % SIZE_T_MOD > vertices.length
    · rw [if_pos hchk]
      exact ⟨fun _ => (key vertexIndices.length hs).mp hchk, fun _ => rfl⟩
    · rw [if_neg hchk]
      cases vertexIndices with
      | nil => exact absurd (by simpa using hoobgt) hchk
      | cons sel rest =>
        rw [defineFaceLoop_undefined sel rest vertices _ 0 positions hoob]
        refine ⟨fun h => ?_, fun h =>
          absurd ((key (sel :: rest).length hs).mpr h) hchk⟩
        simp at h
  · intro hge hle
    have hchk : ¬ (sizeT offset + vertexIndices.length) % SIZE_T_MOD > vertices.length :=
      fun h => by
        rcases (key vertexIndices.length hs).mp h with h' | h' <;> omega
    rw [DefineFace, if_neg hchk]
    cases vertexIndices with
    | nil =>
      simp only [List.length_nil, Nat.cast_zero, add_zero] at hge
      exact absurd hge (by omega)
    | cons sel rest =>
      rw [defineFaceLoop_undefined sel rest vertices _ 0 positions hoob]

/-- Witness for the amended C10: with three vertices, `offset = -1` and
three coordinates (resp. two selectors) the checks pass and both helpers
hit the out-of-bounds first access. -/
theorem C10_negative_offset_witness :
    AssignTextureCoords ([⟨0, 0⟩, ⟨1, 1⟩, ⟨2, 2⟩] : List (Vertex Nat Nat))
        (-1) [5, 6, 7] = .undefined ∧
    DefineFace ([⟨0, 0⟩, ⟨1, 1⟩, ⟨2, 2⟩] : List (Vertex Nat Nat))
        (-1) [4] [0, 0] [9] = .undefined :=
  ⟨(C10_negative_offset Nat Nat [⟨0, 0⟩, ⟨1, 1⟩, ⟨2, 2⟩] (-1) [5, 6, 7] [4] [0, 0] [9]
      (by decide) (by decide) (by decide) (by decide) (by decide)).2.1
      (by decide) (by decide),
   (C10_negative_offset Nat Nat [⟨0, 0⟩, ⟨1, 1⟩, ⟨2, 2⟩] (-1) [5, 6, 7] [4] [0, 0] [9]
      (by decide) (by decide) (by decide) (by decide) (by decide)).2.2.2
      (by decide) (by decide)⟩

end Graf

